import Mathlib

/-!
Verification of the Dyness battery integration (custom_components/dyness).

The development shallowly embeds the Python source:

* `api.py` — the signed API client (`DynessAPI`): request signing
  (MD5 content digest, HMAC-SHA1 signature), response classification in
  `_post`, the `test_connection` validation call and the `get_all_data`
  snapshot aggregator.
* `__init__.py` / `config_flow.py` — the two construction sites of the
  client, which differ in whether the configured region is passed.

JSON payloads are modelled by `JVal` (Python `json` values; numbers are
modelled as integers, which covers every status code and telemetry value
the claims touch — floats are out of scope).  Python exceptions are
modelled by `PyErr`; fallible code returns `Except PyErr`.  Network I/O
is made explicit: each HTTP call is parameterised by a `TransportOutcome`
(either the parsed JSON of a completed response, or a transport fault:
connection error, timeout, or a JSON parse failure of the body).
-/

/-- A parsed JSON value (Python `json.loads` result).  Numbers are
integers; floats do not occur in any claim. -/
inductive JVal where
  | null
  | bool (b : Bool)
  | num (n : Int)
  | str (s : String)
  | arr (elems : List JVal)
  | obj (fields : List (String × JVal))
deriving Repr

/-- Python exceptions that the embedded code can raise.
`apiError` is `DynessAPIError`; the others are the builtin exceptions
raised by malformed-payload post-processing. -/
inductive PyErr where
  | apiError (msg : String)
  | keyError (key : String)
  | attrError (attr : String)
  | typeError (msg : String)
deriving DecidableEq, Repr

/-- Python truthiness of a JSON value (`bool(v)`). -/
def pyTruthy : JVal → Bool
  | .null => false
  | .bool b => b
  | .num n => n != 0
  | .str s => s ≠ ""
  | .arr l => !l.isEmpty
  | .obj l => !l.isEmpty

/-- Python `x or y` on JSON values: `x` if truthy, else `y`. -/
def pyOrElse (v d : JVal) : JVal := if pyTruthy v then v else d

/-- Lookup in a parsed JSON object (`dict.get` on a parsed dict).  On
duplicate keys `json.loads` keeps the last binding, so the last match
wins. -/
def objGet? (fs : List (String × JVal)) (k : String) : Option JVal :=
  match fs with
  | [] => none
  | (l, v) :: rest =>
    match objGet? rest k with
    | some w => some w
    | none => if l = k then some v else none

/-- `dict.get(k, d)` on a parsed JSON object. -/
def objGetD (fs : List (String × JVal)) (k : String) (d : JVal) : JVal :=
  (objGet? fs k).getD d

/-- Lowercase hex digit. -/
def hexDigit (n : Nat) : Char := ("0123456789abcdef".data.getD n '0')

/-- CPython escape of one character inside a `repr`ed string quoted by
`q`: backslash and the quote are backslash-escaped, `\n` `\r` `\t` get
their short forms, other control characters become `\xHH`. -/
def pyReprEscape (q : Char) (c : Char) : List Char :=
  if c = '\\' then ['\\', '\\']
  else if c = q then ['\\', q]
  else if c = '\n' then ['\\', 'n']
  else if c = '\r' then ['\\', 'r']
  else if c = '\t' then ['\\', 't']
  else if c.toNat < 32 ∨ c.toNat = 127 then
    ['\\', 'x', hexDigit (c.toNat / 16), hexDigit (c.toNat % 16)]
  else [c]

mutual

/-- Python `repr` of a JSON value.  Scalar cases are exact; for strings
the quote choice and the escapes for backslash, quote, newline, tab,
carriage return and other control characters follow CPython. -/
def pyRepr : JVal → String
  | .null => "None"
  | .bool true => "True"
  | .bool false => "False"
  | .num n => toString n
  | .str s =>
    let q : Char := if s.data.contains '\x27' ∧ ¬ s.data.contains '"' then '"' else '\x27'
    String.mk (q :: (s.data.flatMap (pyReprEscape q)) ++ [q])
  | .arr xs => "[" ++ pyReprList xs ++ "]"
  | .obj fs => "\x7b" ++ pyReprFields fs ++ "\x7d"
termination_by v => sizeOf v

/-- Comma-separated `repr`s of list elements. -/
def pyReprList : List JVal → String
  | [] => ""
  | [x] => pyRepr x
  | x :: y :: rest => pyRepr x ++ ", " ++ pyReprList (y :: rest)
termination_by l => sizeOf l

/-- Comma-separated `repr(key): repr(value)` pairs of dict entries. -/
def pyReprFields : List (String × JVal) → String
  | [] => ""
  | [(k, v)] => pyRepr (.str k) ++ ": " ++ pyRepr v
  | (k, v) :: f :: rest => pyRepr (.str k) ++ ": " ++ pyRepr v ++ ", " ++ pyReprFields (f :: rest)
termination_by l => sizeOf l

end

/-- Python `str` of a JSON value (`f"{v}"` formatting): identity on
strings, `repr`-like elsewhere. -/
def pyStr : JVal → String
  | .null => "None"
  | .bool true => "True"
  | .bool false => "False"
  | .num n => toString n
  | .str s => s
  | .arr xs => pyRepr (.arr xs)
  | .obj fs => pyRepr (.obj fs)

/-- Name of the Python type of a JSON value, for exception messages. -/
def pyTypeName : JVal → String
  | .null => "NoneType"
  | .bool _ => "bool"
  | .num _ => "int"
  | .str _ => "str"
  | .arr _ => "list"
  | .obj _ => "dict"

/-- A Python dict built at runtime (the `bms` / `dongle` point maps);
keys are arbitrary hashable JSON values, insertion order preserved. -/
abbrev PyDict := List (JVal × JVal)

/-- Python `==` restricted to hashable (scalar) JSON values, which are
the only values ever inserted as dict keys (unhashable keys raise before
insertion).  The claims only exercise string keys, for which this is
exact. -/
def pyKeyEq (a b : JVal) : Bool :=
  match a, b with
  | .null, .null => true
  | .bool x, .bool y => x == y
  | .num x, .num y => x == y
  | .str x, .str y => x == y
  | _, _ => false

/-- Is the value usable as a Python dict key (hashable)? -/
def pyHashable : JVal → Bool
  | .arr _ => false
  | .obj _ => false
  | _ => true

/-- First (and, by `dictSet` construction, only) binding of a key. -/
def dictFind? (d : PyDict) (k : JVal) : Option JVal :=
  match d with
  | [] => none
  | (l, v) :: rest => if pyKeyEq l k then some v else dictFind? rest k

/-- `dict.get(k, dflt)`. -/
def dictGetD (d : PyDict) (k : JVal) (dflt : JVal) : JVal :=
  (dictFind? d k).getD dflt

/-- `d[k] = v`: overwrite in place if the key is present, else append
(Python dicts preserve insertion order). -/
def dictSet (d : PyDict) (k v : JVal) : PyDict :=
  match d with
  | [] => [(k, v)]
  | (l, w) :: rest => if pyKeyEq l k then (l, v) :: rest else (l, w) :: dictSet rest k v

/-- Python iteration `for x in v`: lists yield elements, strings yield
their characters, dicts yield their keys; scalars are not iterable. -/
def pyIter : JVal → Except PyErr (List JVal)
  | .arr xs => .ok xs
  | .str s => .ok (s.data.map (fun c => .str (String.mk [c])))
  | .obj fs => .ok (fs.map (fun p => .str p.1))
  | v => .error (.typeError ("\x27" ++ pyTypeName v ++ "\x27 object is not iterable"))

/-- Python `x.get(k)` (default `None`): only dicts have `.get`; any
other receiver raises `AttributeError`. -/
def pyMethodGet (x : JVal) (k : String) : Except PyErr (Option JVal) :=
  match x with
  | .obj fs => .ok (objGet? fs k)
  | v => .error (.attrError ("\x27" ++ pyTypeName v ++ "\x27 object has no attribute \x27get\x27"))

/-- Python `x[k]` with a string key: missing key raises `KeyError`,
non-dict receivers raise `TypeError`. -/
def pyGetItem (x : JVal) (k : String) : Except PyErr JVal :=
  match x with
  | .obj fs =>
    match objGet? fs k with
    | some v => .ok v
    | none => .error (.keyError k)
  | v => .error (.typeError ("\x27" ++ pyTypeName v ++ "\x27 indices must not be str"))

/-- Characters removed by Python `str.strip()` (the ASCII whitespace
set: space, tab, LF, CR, vertical tab, form feed). -/
def pySpaceChar (c : Char) : Bool :=
  c = ' ' ∨ c = '\t' ∨ c = '\n' ∨ c = '\r' ∨ c.toNat = 11 ∨ c.toNat = 12

/-- Python `s.strip()`. -/
def pyStrip (s : String) : String :=
  String.mk (((s.data.dropWhile pySpaceChar).reverse.dropWhile pySpaceChar).reverse)

/-- Split a character list on literal commas; like Python
`s.split(",")` this yields one (possibly empty) group per separator gap,
so the empty string yields `[[]]`. -/
def splitOnComma (l : List Char) : List (List Char) :=
  match l with
  | [] => [[]]
  | c :: rest =>
    match splitOnComma rest with
    | [] => [[]]
    | g :: gs => if c = ',' then [] :: g :: gs else (c :: g) :: gs

/-- Python `s.split(",")`. -/
def pySplitComma (s : String) : List String := (splitOnComma s.data).map String.mk

/-- The module-serial candidate list
`[s.strip() for s in sub.split(",") if s.strip()]` from
`DynessAPI.get_all_data`: comma-split, strip whitespace, drop empties. -/
def moduleTokens (sub : String) : List String :=
  ((pySplitComma sub).map pyStrip).filter (fun t => t ≠ "")

/-!
The signed client (`api.py`).  Each HTTP POST is parameterised by its
`TransportOutcome`: either the JSON value the response body parsed to,
or a transport fault (connection error, timeout, unparseable body —
everything `aiohttp`/`resp.json` can raise inside the `try`).
-/

/-- Outcome of the network part of one `_post` call. -/
inductive TransportOutcome where
  | ok (parsed : JVal)
  | fault (msg : String)
deriving Repr

namespace DynessAPI

/-- `BASE_URLS["global"]`. -/
def globalBaseUrl : String := "https://open-api.dyness.com/openapi/ems-device"

/-- `BASE_URLS["apac"]`. -/
def apacBaseUrl : String := "https://apacopenapi.dyness.com/openapi/ems-device"

/-- `BASE_URLS.get(region, BASE_URLS["global"])` from `__init__`. -/
def baseUrlOf (region : String) : String :=
  if region = "global" then globalBaseUrl
  else if region = "apac" then apacBaseUrl
  else globalBaseUrl

/-- The fields set by `DynessAPI.__init__`. -/
structure State where
  api_id : String
  api_secret : String
  sn_bms : String
  sn_dongle : String
  sn_module : String
  base_url : String
deriving DecidableEq, Repr

/-- `DynessAPI.__init__` with every argument supplied. -/
def mk (api_id api_secret sn_bms sn_dongle sn_module region : String) : State :=
  ⟨api_id, api_secret, sn_bms, sn_dongle, sn_module, baseUrlOf region⟩

/-- `DynessAPI(api_id, api_secret, sn_bms, sn_dongle)` with the trailing
parameters omitted: the constructor defaults `sn_module = ""` and
`region = "global"` apply. -/
def mkDefaults (api_id api_secret sn_bms sn_dongle : String) : State :=
  mk api_id api_secret sn_bms sn_dongle "" "global"

/-- Endpoint path of the device-detail call. -/
def DETAIL_PATH : String := "/v1/device/household/storage/detail"

/-- Endpoint path of the power-history call. -/
def POWER_PATH : String := "/v1/device/getLastPowerDataBySn"

/-- Endpoint path of the real-time points call (BMS and dongle). -/
def REALTIME_PATH : String := "/v1/device/realTime/data"

/-- `DynessAPI._post`: on a transport fault, wrap the cause in a
`DynessAPIError` ("Request to {path} failed: {err}").  On a parsed
response, `data.get("code")` is stringified and compared against
`("0", "200")`; failure raises `DynessAPIError` with path, code and
info; success returns the envelope.  A parsed body that is not a dict
makes `data.get` raise `AttributeError`, which the blanket
`except Exception` clause also wraps into `DynessAPIError`. -/
def post (path : String) (t : TransportOutcome) : Except PyErr (List (String × JVal)) :=
  match t with
  | .fault msg => .error (.apiError ("Request to " ++ path ++ " failed: " ++ msg))
  | .ok (.obj fs) =>
    if pyStr (objGetD fs "code" .null) = "0" ∨ pyStr (objGetD fs "code" .null) = "200" then
      .ok fs
    else
      .error (.apiError (path ++ " → code=" ++ pyStr (objGetD fs "code" .null)
        ++ " | " ++ pyStr (objGetD fs "info" .null)))
  | .ok v =>
    .error (.apiError ("Request to " ++ path ++ " failed: \x27" ++ pyTypeName v
      ++ "\x27 object has no attribute \x27get\x27"))

/-- Path and JSON body of one `_post` call site. -/
structure PostCall where
  path : String
  body : JVal
deriving Repr

/-- The single call `test_connection` performs: device detail by the
BMS serial. -/
def test_connection_call (sn_bms : String) : PostCall :=
  ⟨DETAIL_PATH, .obj [("deviceSn", .str sn_bms)]⟩

/-- `DynessAPI.test_connection`: one `_post` to the device-detail path;
on success return `r.get("data", {})`, on failure let the
`DynessAPIError` propagate unmodified. -/
def test_connection (t : TransportOutcome) : Except PyErr JVal :=
  match post DETAIL_PATH t with
  | .ok fs => .ok (objGetD fs "data" (.obj []))
  | .error e => .error e

/-- Section 1 payload: `r.get("data", {})`. -/
def deviceSection (fs : List (String × JVal)) : JVal := objGetD fs "data" (.obj [])

/-- The iterated value `(r.get("data") or [])` shared by sections
2–4. -/
def dataEntries (fs : List (String × JVal)) : JVal :=
  pyOrElse (objGetD fs "data" .null) (.arr [])

/-- The list comprehension
`[x for x in d if x.get("realTimePower") is not None]`: entries whose
`realTimePower` is present and non-null survive; a non-dict entry makes
`x.get` raise `AttributeError`. -/
def selectPowerRecords : List JVal → Except PyErr (List JVal)
  | [] => .ok []
  | x :: rest =>
    match pyMethodGet x "realTimePower" with
    | .error e => .error e
    | .ok none => selectPowerRecords rest
    | .ok (some .null) => selectPowerRecords rest
    | .ok (some _) =>
      match selectPowerRecords rest with
      | .error e => .error e
      | .ok tail => .ok (x :: tail)

/-- Section 2 post-processing: iterate `(r.get("data") or [])`, filter
to usable records, and take `records[-1] if records else {}`. -/
def powerSection (fs : List (String × JVal)) : Except PyErr JVal :=
  match pyIter (dataEntries fs) with
  | .error e => .error e
  | .ok xs =>
    match selectPowerRecords xs with
    | .error e => .error e
    | .ok records => .ok (records.getLast?.getD (.obj []))

/-- The dict comprehension
`{p["pointId"]: p["pointValue"] for p in d}`: key then value are
looked up (raising `KeyError` when missing, `TypeError` on a non-dict
record), and an unhashable key raises `TypeError` at insertion. -/
def buildPoints : List JVal → PyDict → Except PyErr PyDict
  | [], acc => .ok acc
  | p :: rest, acc =>
    match pyGetItem p "pointId" with
    | .error e => .error e
    | .ok k =>
      match pyGetItem p "pointValue" with
      | .error e => .error e
      | .ok v =>
        if pyHashable k then buildPoints rest (dictSet acc k v)
        else .error (.typeError ("unhashable type: \x27" ++ pyTypeName k ++ "\x27"))

/-- Sections 3 and 4 point-map construction over
`(r.get("data") or [])`. -/
def pointsOf (fs : List (String × JVal)) : Except PyErr PyDict :=
  match pyIter (dataEntries fs) with
  | .error e => .error e
  | .ok ps => buildPoints ps []

/-- The module-serial auto-discovery inside section 3: only when
`self.sn_module` is still empty, read the `SUB` point (default `""`),
split/strip/drop-empties, and adopt the first candidate if any remain.
A non-string `SUB` value makes `sub.split` raise `AttributeError`. -/
def discoverModule (sn_module : String) (bms : PyDict) : Except PyErr String :=
  if sn_module = "" then
    match dictGetD bms (.str "SUB") (.str "") with
    | .str s => .ok ((moduleTokens s).headD sn_module)
    | v => .error (.attrError ("\x27" ++ pyTypeName v ++ "\x27 object has no attribute \x27split\x27"))
  else .ok sn_module

/-- Section 3 post-processing: build the BMS point map, then run the
module-serial discovery; returns the map and the (possibly updated)
module serial. -/
def bmsSection (sn_module : String) (fs : List (String × JVal)) :
    Except PyErr (PyDict × String) :=
  match pointsOf fs with
  | .error e => .error e
  | .ok bms =>
    match discoverModule sn_module bms with
    | .error e => .error e
    | .ok m => .ok (bms, m)

/-- A value bound in the snapshot dict: sections 1–2 store JSON values,
sections 3–4 store point dicts. -/
inductive SecVal where
  | jval (v : JVal)
  | dict (d : PyDict)
deriving Repr

/-- An `except DynessAPIError` handler around a section: an
`apiError` is downgraded to the section's fallback value, every other
exception propagates. -/
def catchApiErr {α : Type} (x : Except PyErr α) (fallback : α) : Except PyErr α :=
  match x with
  | .ok a => .ok a
  | .error (.apiError _) => .ok fallback
  | .error e => .error e

/-- Section 1 of `get_all_data` (device detail; falls back to `{}`). -/
def runDevice (t : TransportOutcome) : Except PyErr SecVal :=
  catchApiErr
    (match post DETAIL_PATH t with
     | .ok fs => .ok (.jval (deviceSection fs))
     | .error e => .error e)
    (.jval (.obj []))

/-- Section 2 of `get_all_data` (power history; falls back to `{}`). -/
def runPower (t : TransportOutcome) : Except PyErr SecVal :=
  catchApiErr
    (match post POWER_PATH t with
     | .ok fs =>
       match powerSection fs with
       | .ok v => .ok (.jval v)
       | .error e => .error e
     | .error e => .error e)
    (.jval (.obj []))

/-- Section 3 of `get_all_data` (BMS points plus discovery; falls back
to `{}` with the module serial untouched). -/
def runBms (sn_module : String) (t : TransportOutcome) : Except PyErr (SecVal × String) :=
  catchApiErr
    (match post REALTIME_PATH t with
     | .ok fs =>
       match bmsSection sn_module fs with
       | .ok (d, m) => .ok (.dict d, m)
       | .error e => .error e
     | .error e => .error e)
    ((.dict []), sn_module)

/-- Section 4 of `get_all_data` (dongle points; falls back to `{}`). -/
def runDongle (t : TransportOutcome) : Except PyErr SecVal :=
  catchApiErr
    (match post REALTIME_PATH t with
     | .ok fs =>
       match pointsOf fs with
       | .ok d => .ok (.dict d)
       | .error e => .error e
     | .error e => .error e)
    (.dict [])

/-- `DynessAPI.get_all_data`, parameterised by the module serial held in
`self.sn_module` and the transport outcomes of its four calls (device
detail, power history, BMS real-time points, dongle real-time points).
The first component is the returned snapshot dict in insertion order —
or the escaping exception; the second is the value of `self.sn_module`
after the call (the mutation survives even when a later section
raises). -/
def get_all_data (sn_module : String) (t1 t2 t3 t4 : TransportOutcome) :
    Except PyErr (List (String × SecVal)) × String :=
  match runDevice t1 with
  | .error e => (.error e, sn_module)
  | .ok dev =>
    match runPower t2 with
    | .error e => (.error e, sn_module)
    | .ok pow =>
      match runBms sn_module t3 with
      | .error e => (.error e, sn_module)
      | .ok (bmsv, m2) =>
        match runDongle t4 with
        | .error e => (.error e, m2)
        | .ok don =>
          (.ok [("device", dev), ("power", pow), ("bms", bmsv), ("dongle", don)], m2)

end DynessAPI

/-!
The two construction sites of the client outside `api.py`.
-/

/-- The relevant contents of a stored config entry
(`entry.data`): the four credential/serial fields are always present,
the region key may or may not be. -/
structure ConfigEntryData where
  api_id : String
  api_secret : String
  sn_bms : String
  sn_dongle : String
  region : Option String
deriving DecidableEq, Repr

/-- The client built by `async_setup_entry` in `__init__.py`: only the
four credential/serial fields of the entry are passed — the stored
region is not. -/
def setupEntryApi (d : ConfigEntryData) : DynessAPI.State :=
  DynessAPI.mkDefaults d.api_id d.api_secret d.sn_bms d.sn_dongle

/-- The client built by `validate_input` in `config_flow.py`: the region
is passed as `data.get("region", "global")`. -/
def validateInputApi (d : ConfigEntryData) : DynessAPI.State :=
  DynessAPI.mk d.api_id d.api_secret d.sn_bms d.sn_dongle "" (d.region.getD "global")

/-!
The signing primitives (`hashlib.md5`, `hashlib.sha1`, `hmac`,
`base64.b64encode`, UTF-8 encoding and `json.dumps` with compact
separators), embedded over `Nat` byte lists with explicit `% 2 ^ 32`
word arithmetic.
-/

/-- UTF-8 encoding of one character (`str.encode("utf-8")`). -/
def utf8Char (c : Char) : List Nat :=
  let n := c.toNat
  if n < 128 then [n]
  else if n < 2048 then [192 + n / 64, 128 + n % 64]
  else if n < 65536 then [224 + n / 4096, 128 + (n / 64) % 64, 128 + n % 64]
  else [240 + n / 262144, 128 + (n / 4096) % 64, 128 + (n / 64) % 64, 128 + n % 64]

/-- UTF-8 encoding of a string as a byte list. -/
def utf8Bytes (s : String) : List Nat := (s.data.map utf8Char).flatten

/-- The base64 alphabet. -/
def b64Alpha : List Char :=
  "ABCDEFGHIJKLMNOPQRSTUVWXYZabcdefghijklmnopqrstuvwxyz0123456789+/".data

/-- Character for a 6-bit group. -/
def b64Digit (n : Nat) : Char := b64Alpha.getD n 'A'

/-- Standard base64 of a byte list, with `=` padding
(`base64.b64encode`). -/
def b64Chars : List Nat → List Char
  | [] => []
  | [a] => [b64Digit (a / 4), b64Digit (a % 4 * 16), '=', '=']
  | [a, b] => [b64Digit (a / 4), b64Digit (a % 4 * 16 + b / 16), b64Digit (b % 16 * 4), '=']
  | a :: b :: c :: rest =>
    b64Digit (a / 4) :: b64Digit (a % 4 * 16 + b / 16)
      :: b64Digit (b % 16 * 4 + c / 64) :: b64Digit (c % 64) :: b64Chars rest

/-- `base64.b64encode(...).decode("utf-8")`. -/
def b64Encode (bytes : List Nat) : String := String.mk (b64Chars bytes)

/-- 2 ^ 32, the word modulus. -/
def M32 : Nat := 4294967296

/-- Reduce to a 32-bit word. -/
def m32 (n : Nat) : Nat := n % M32

/-- 32-bit left rotation (the operand is reduced first). -/
def rotl32 (x s : Nat) : Nat :=
  m32 ((x % M32) <<< s) + (x % M32) >>> (32 - s)

/-- 32-bit bitwise complement of a word below `2 ^ 32`. -/
def not32 (x : Nat) : Nat := 4294967295 - x % M32

/-- Little-endian bytes of a number, fixed width `k`. -/
def natLEBytes (k n : Nat) : List Nat :=
  match k with
  | 0 => []
  | k + 1 => n % 256 :: natLEBytes k (n / 256)

/-- Big-endian bytes of a number, fixed width `k`. -/
def natBEBytes (k n : Nat) : List Nat := (natLEBytes k n).reverse

/-- Interpret 4 consecutive bytes as a little-endian 32-bit word,
16 words per 64-byte block. -/
def bytesToWordsLE : List Nat → List Nat
  | b0 :: b1 :: b2 :: b3 :: rest =>
    (b0 + b1 * 256 + b2 * 65536 + b3 * 16777216) :: bytesToWordsLE rest
  | _ => []

/-- Interpret 4 consecutive bytes as a big-endian 32-bit word. -/
def bytesToWordsBE : List Nat → List Nat
  | b0 :: b1 :: b2 :: b3 :: rest =>
    (b0 * 16777216 + b1 * 65536 + b2 * 256 + b3) :: bytesToWordsBE rest
  | _ => []

/-- Merkle–Damgård padding shared by MD5 and SHA-1: append `0x80`, zero
bytes up to 56 mod 64, then the 8-byte bit length (little-endian for
MD5, big-endian for SHA-1). -/
def mdPad (lenBytes : List Nat) (msg : List Nat) : List Nat :=
  msg ++ 128 :: List.replicate ((119 - msg.length % 64) % 64) 0 ++ lenBytes

/-- The 64 MD5 sine-derived round constants. -/
def md5K : List Nat :=
  [3614090360, 3905402710, 606105819, 3250441966,
   4118548399, 1200080426, 2821735955, 4249261313,
   1770035416, 2336552879, 4294925233, 2304563134,
   1804603682, 4254626195, 2792965006, 1236535329,
   4129170786, 3225465664, 643717713, 3921069994,
   3593408605, 38016083, 3634488961, 3889429448,
   568446438, 3275163606, 4107603335, 1163531501,
   2850285829, 4243563512, 1735328473, 2368359562,
   4294588738, 2272392833, 1839030562, 4259657740,
   2763975236, 1272893353, 4139469664, 3200236656,
   681279174, 3936430074, 3572445317, 76029189,
   3654602809, 3873151461, 530742520, 3299628645,
   4096336452, 1126891415, 2878612391, 4237533241,
   1700485571, 2399980690, 4293915773, 2240044497,
   1873313359, 4264355552, 2734768916, 1309151649,
   4149444226, 3174756917, 718787259, 3951481745]

/-- The MD5 per-round left-rotation amounts. -/
def md5S : List Nat :=
  [7, 12, 17, 22, 7, 12, 17, 22, 7, 12, 17, 22, 7, 12, 17, 22,
   5, 9, 14, 20, 5, 9, 14, 20, 5, 9, 14, 20, 5, 9, 14, 20,
   4, 11, 16, 23, 4, 11, 16, 23, 4, 11, 16, 23, 4, 11, 16, 23,
   6, 10, 15, 21, 6, 10, 15, 21, 6, 10, 15, 21, 6, 10, 15, 21]

/-- One MD5 round `i` over the 16 message words `mw`. -/
def md5Round (mw : List Nat) (st : Nat × Nat × Nat × Nat) (i : Nat) : Nat × Nat × Nat × Nat :=
  match st with
  | (a, b, c, d) =>
    let f :=
      if i < 16 then (b &&& c) ||| (not32 b &&& d)
      else if i < 32 then (d &&& b) ||| (not32 d &&& c)
      else if i < 48 then b ^^^ c ^^^ d
      else c ^^^ (b ||| not32 d)
    let g :=
      if i < 16 then i
      else if i < 32 then (5 * i + 1) % 16
      else if i < 48 then (3 * i + 5) % 16
      else (7 * i) % 16
    let rot := rotl32 (m32 (a + f + md5K.getD i 0 + mw.getD g 0)) (md5S.getD i 0)
    (d, m32 (b + rot), b, c)

/-- MD5 compression of one 64-byte block into the running state. -/
def md5Compress (st : Nat × Nat × Nat × Nat) (block : List Nat) : Nat × Nat × Nat × Nat :=
  match st with
  | (a0, b0, c0, d0) =>
    match (List.range 64).foldl (md5Round (bytesToWordsLE block)) (a0, b0, c0, d0) with
    | (a, b, c, d) => (m32 (a0 + a), m32 (b0 + b), m32 (c0 + c), m32 (d0 + d))

/-- Fold a compression function over consecutive 64-byte blocks; `fuel`
bounds the recursion (call with the padded length, a multiple of 64). -/
def foldBlocks (compress : α → List Nat → α) : Nat → α → List Nat → α
  | 0, st, _ => st
  | _ + 1, st, [] => st
  | fuel + 1, st, bytes => foldBlocks compress fuel (compress st (bytes.take 64)) (bytes.drop 64)

/-- MD5 state words of a message, each below `2 ^ 32`. -/
def md5Words (msg : List Nat) : Nat × Nat × Nat × Nat :=
  let padded := mdPad (natLEBytes 8 (8 * msg.length)) msg
  match foldBlocks md5Compress padded.length
      (1732584193, 4023233417, 2562383102, 271733878) padded with
  | (a, b, c, d) => (m32 a, m32 b, m32 c, m32 d)

/-- The 16 raw MD5 digest bytes (`hashlib.md5(...).digest()`). -/
def md5Bytes (msg : List Nat) : List Nat :=
  match md5Words msg with
  | (a, b, c, d) => natLEBytes 4 a ++ natLEBytes 4 b ++ natLEBytes 4 c ++ natLEBytes 4 d

/-- Extend 16 big-endian schedule words to 80 for SHA-1; the
accumulator holds the words newest-first. -/
def sha1Extend : Nat → List Nat → List Nat
  | 0, acc => acc
  | n + 1, acc =>
    sha1Extend n
      (rotl32 (acc.getD 2 0 ^^^ acc.getD 7 0 ^^^ acc.getD 13 0 ^^^ acc.getD 15 0) 1 :: acc)

/-- One SHA-1 round `i` over the 80 schedule words `w`. -/
def sha1Round (w : List Nat) (st : Nat × Nat × Nat × Nat × Nat) (i : Nat) :
    Nat × Nat × Nat × Nat × Nat :=
  match st with
  | (a, b, c, d, e) =>
    let f :=
      if i < 20 then (b &&& c) ||| (not32 b &&& d)
      else if i < 40 then b ^^^ c ^^^ d
      else if i < 60 then (b &&& c) ||| (b &&& d) ||| (c &&& d)
      else b ^^^ c ^^^ d
    let k :=
      if i < 20 then 1518500249
      else if i < 40 then 1859775393
      else if i < 60 then 2400959708
      else 3395469782
    (m32 (rotl32 a 5 + f + e + k + w.getD i 0), a, rotl32 b 30, c, d)

/-- SHA-1 compression of one 64-byte block into the running state. -/
def sha1Compress (st : Nat × Nat × Nat × Nat × Nat) (block : List Nat) :
    Nat × Nat × Nat × Nat × Nat :=
  match st with
  | (h0, h1, h2, h3, h4) =>
    let w := (sha1Extend 64 (bytesToWordsBE block).reverse).reverse
    match (List.range 80).foldl (sha1Round w) (h0, h1, h2, h3, h4) with
    | (a, b, c, d, e) =>
      (m32 (h0 + a), m32 (h1 + b), m32 (h2 + c), m32 (h3 + d), m32 (h4 + e))

/-- The 20 raw SHA-1 digest bytes (`hashlib.sha1(...).digest()`). -/
def sha1Bytes (msg : List Nat) : List Nat :=
  let padded := mdPad (natBEBytes 8 (8 * msg.length)) msg
  match foldBlocks sha1Compress padded.length
      (1732584193, 4023233417, 2562383102, 271733878, 3285377520) padded with
  | (a, b, c, d, e) =>
    natBEBytes 4 a ++ natBEBytes 4 b ++ natBEBytes 4 c ++ natBEBytes 4 d ++ natBEBytes 4 e

/-- `hmac.new(key, msg, hashlib.sha1).digest()`: the RFC 2104
construction over SHA-1 with a 64-byte block size. -/
def hmacSha1 (key msg : List Nat) : List Nat :=
  let k0 := if 64 < key.length then sha1Bytes key else key
  let k1 := k0 ++ List.replicate (64 - k0.length) 0
  sha1Bytes ((k1.map (fun b => b ^^^ 92)) ++ sha1Bytes ((k1.map (fun b => b ^^^ 54)) ++ msg))

namespace DynessAPI

/-- `DynessAPI._md5`: base64 of the raw MD5 digest bytes of the UTF-8
encoded body string. -/
def md5 (body : String) : String := b64Encode (md5Bytes (utf8Bytes body))

/-- `DynessAPI._sign`: the five fields joined by newline into the
string-to-sign, HMAC-SHA1 under the API secret, base64 of the raw
output. -/
def sign (api_secret method digest content_type date path : String) : String :=
  b64Encode (hmacSha1 (utf8Bytes api_secret)
    (utf8Bytes (method ++ "\n" ++ digest ++ "\n" ++ content_type ++ "\n" ++ date ++ "\n" ++ path)))

end DynessAPI

/-!
`json.dumps(body, separators=(",", ":"))`: the canonical compact
serialization whose bytes are both the wire body and the digest input.
Default `ensure_ascii` applies, so characters outside `0x20..0x7e` are
`\uXXXX`-escaped (astral characters as surrogate pairs).
-/

/-- A `\uXXXX` escape for a code unit. -/
def uEscape (n : Nat) : List Char :=
  ['\\', 'u', hexDigit (n / 4096 % 16), hexDigit (n / 256 % 16),
   hexDigit (n / 16 % 16), hexDigit (n % 16)]

/-- `json.dumps` escape of one string character. -/
def jsonEscapeChar (c : Char) : List Char :=
  if c = '"' then ['\\', '"']
  else if c = '\\' then ['\\', '\\']
  else if c = '\n' then ['\\', 'n']
  else if c = '\t' then ['\\', 't']
  else if c = '\r' then ['\\', 'r']
  else if c.toNat = 8 then ['\\', 'b']
  else if c.toNat = 12 then ['\\', 'f']
  else if c.toNat < 32 then uEscape c.toNat
  else if c.toNat < 127 then [c]
  else if c.toNat < 65536 then uEscape c.toNat
  else uEscape (55296 + (c.toNat - 65536) / 1024) ++ uEscape (56320 + (c.toNat - 65536) % 1024)

/-- A serialized JSON string literal, quotes included. -/
def jsonQuote (s : String) : String :=
  String.mk ('"' :: s.data.flatMap jsonEscapeChar ++ ['"'])

mutual

/-- `json.dumps(v, separators=(",", ":"))`. -/
def jsonDumps : JVal → String
  | .null => "null"
  | .bool true => "true"
  | .bool false => "false"
  | .num n => toString n
  | .str s => jsonQuote s
  | .arr xs => "[" ++ jsonDumpsList xs ++ "]"
  | .obj fs => "\x7b" ++ jsonDumpsFields fs ++ "\x7d"
termination_by v => sizeOf v

/-- Comma-joined serializations of array elements. -/
def jsonDumpsList : List JVal → String
  | [] => ""
  | [x] => jsonDumps x
  | x :: y :: rest => jsonDumps x ++ "," ++ jsonDumpsList (y :: rest)
termination_by l => sizeOf l

/-- Comma-joined `"key":value` serializations of object fields. -/
def jsonDumpsFields : List (String × JVal) → String
  | [] => ""
  | [(k, v)] => jsonQuote k ++ ":" ++ jsonDumps v
  | (k, v) :: f :: rest => jsonQuote k ++ ":" ++ jsonDumps v ++ "," ++ jsonDumpsFields (f :: rest)
termination_by l => sizeOf l

end

/-- The serialized body and headers-relevant digest of one `_post`:
`body_str = json.dumps(body, separators=(",", ":"))` and
`Content-MD5 = self._md5(body_str)`. -/
def DynessAPI.contentDigest (body : JVal) : String := DynessAPI.md5 (jsonDumps body)

/-!
Spec-side reference definitions and well-formedness predicates used to
state the claims.
-/

/-- Is the value a JSON object (Python dict)? -/
def isObjVal : JVal → Bool
  | .obj _ => true
  | _ => false

/-- Is the value a JSON string? -/
def isStrVal : JVal → Bool
  | .str _ => true
  | _ => false

/-- Is the exception the client's `DynessAPIError`? -/
def isApiErr : PyErr → Bool
  | .apiError _ => true
  | _ => false

/-- Spec wording for one power-history entry: its `realTimePower` field
is present and non-null. -/
def powerQualifies : JVal → Bool
  | .obj pfs =>
    match objGet? pfs "realTimePower" with
    | some .null => false
    | some _ => true
    | none => false
  | _ => false

/-- Spec wording of the power selection: the last qualifying entry of
the history list, or an empty map when none qualifies. -/
def specPowerSelect (entries : List JVal) : JVal :=
  ((entries.filter powerQualifies).getLast?).getD (.obj [])

/-- A power-call payload is well formed for its post-processing when the
iterated data value is a list of dict entries. -/
def wfPowerEnv (fs : List (String × JVal)) : Bool :=
  match DynessAPI.dataEntries fs with
  | .arr xs => xs.all isObjVal
  | _ => false

/-- A real-time point record is well formed for the dict comprehension:
a dict carrying both `pointId` and `pointValue`, the id hashable. -/
def wfPointRecord : JVal → Bool
  | .obj pfs =>
    (objGet? pfs "pointId").isSome && (objGet? pfs "pointValue").isSome &&
      pyHashable ((objGet? pfs "pointId").getD .null)
  | _ => false

/-- A real-time-points payload is well formed when the iterated data
value is a list of well-formed point records. -/
def wfPointsEnv (fs : List (String × JVal)) : Bool :=
  match DynessAPI.dataEntries fs with
  | .arr xs => xs.all wfPointRecord
  | _ => false

/-- A BMS payload is well formed when its points are, and — if module
discovery will run — the `SUB` point value is a string. -/
def wfBmsEnv (sn_module : String) (fs : List (String × JVal)) : Bool :=
  wfPointsEnv fs &&
    (if sn_module = "" then
      match DynessAPI.pointsOf fs with
      | .ok bms => isStrVal (dictGetD bms (.str "SUB") (.str ""))
      | .error _ => false
    else true)

/-- A family of distinct request bodies used to exhibit an MD5 digest
collision by counting. -/
def bodyOfSize (n : Nat) : JVal :=
  .obj [("deviceSn", .str (String.mk (List.replicate n 'a')))]

/-- The MD5 state words of the serialized `bodyOfSize n`. -/
def md5WordsOf (n : Nat) : Nat × Nat × Nat × Nat :=
  md5Words (utf8Bytes (jsonDumps (bodyOfSize n)))

/-!
Helper lemmas about `_post`.
-/

/-- Every error `_post` raises is a `DynessAPIError`. -/
theorem post_error_api (path : String) (t : TransportOutcome) (e : PyErr)
    (h : DynessAPI.post path t = .error e) : isApiErr e = true := by
  cases t with
  | fault msg => simp [DynessAPI.post] at h; subst h; rfl
  | ok v =>
    cases v with
    | obj fs =>
      by_cases hc : pyStr (objGetD fs "code" .null) = "0" ∨ pyStr (objGetD fs "code" .null) = "200"
      · simp [DynessAPI.post, hc] at h
      · simp [DynessAPI.post, hc] at h; subst h; rfl
    | null => simp [DynessAPI.post] at h; subst h; rfl
    | bool b => simp [DynessAPI.post] at h; subst h; rfl
    | num n => simp [DynessAPI.post] at h; subst h; rfl
    | str s => simp [DynessAPI.post] at h; subst h; rfl
    | arr xs => simp [DynessAPI.post] at h; subst h; rfl

/-- `_post` either returns an envelope or raises a `DynessAPIError`. -/
theorem post_cases (path : String) (t : TransportOutcome) :
    (∃ fs, DynessAPI.post path t = .ok fs) ∨
      ∃ m, DynessAPI.post path t = .error (.apiError m) := by
  cases hp : DynessAPI.post path t with
  | ok fs => exact .inl ⟨fs, rfl⟩
  | error e =>
    have := post_error_api path t e hp
    cases e with
    | apiError m => exact .inr ⟨m, rfl⟩
    | keyError k => simp [isApiErr] at this
    | attrError a => simp [isApiErr] at this
    | typeError m => simp [isApiErr] at this

/-- C2: for a fixed secret, the signature is the base64 of the raw
HMAC-SHA1 of the five fields joined by newline in the order method,
digest, content type, timestamp, path.  Determinism is immediate:
`DynessAPI.sign` is a function of exactly these six strings. -/
theorem sign_is_hmac_of_joined_fields
    (api_secret method digest content_type date path : String) :
    DynessAPI.sign api_secret method digest content_type date path =
      b64Encode (hmacSha1 (utf8Bytes api_secret)
        (utf8Bytes (String.intercalate "\n" [method, digest, content_type, date, path]))) := by
  have h : String.intercalate "\n" [method, digest, content_type, date, path]
      = method ++ "\n" ++ digest ++ "\n" ++ content_type ++ "\n" ++ date ++ "\n" ++ path := by
    simp [String.intercalate, String.intercalate.go, String.append_assoc]
  rw [h]
  rfl

/-- C3: a parsed response succeeds and returns its envelope exactly when
the stringified status code is "0" or "200"; otherwise the call fails
with a `DynessAPIError` carrying the path, the code and the message.
The stringification makes numeric 200 and string "200" both succeed. -/
theorem post_classification (path : String) (fs : List (String × JVal)) :
    ((pyStr (objGetD fs "code" .null) = "0" ∨ pyStr (objGetD fs "code" .null) = "200") →
      DynessAPI.post path (.ok (.obj fs)) = .ok fs)
  ∧ (¬ (pyStr (objGetD fs "code" .null) = "0" ∨ pyStr (objGetD fs "code" .null) = "200") →
      DynessAPI.post path (.ok (.obj fs)) =
        .error (.apiError (path ++ " → code=" ++ pyStr (objGetD fs "code" .null)
          ++ " | " ++ pyStr (objGetD fs "info" .null))))
  ∧ pyStr (.num 200) = "200" ∧ pyStr (.str "200") = "200" := by
  refine ⟨fun h => ?_, fun h => ?_, rfl, rfl⟩
  · simp [DynessAPI.post, h]
  · simp [DynessAPI.post, h]

/-- Witness for C3: a numeric code 200 succeeds; a string code "1" fails
with the path, the code and the message in the error. -/
theorem post_classification_witness :
    DynessAPI.post "/v1/x" (.ok (.obj [("code", .num 200), ("data", .num 1)]))
        = .ok [("code", .num 200), ("data", .num 1)]
  ∧ DynessAPI.post "/v1/x" (.ok (.obj [("code", .str "1"), ("info", .str "bad request")]))
        = .error (.apiError "/v1/x → code=1 | bad request") := by
  constructor
  · exact (post_classification "/v1/x" _).1 (Or.inr rfl)
  · exact (post_classification "/v1/x" _).2.1 (by simp [pyStr, objGetD, objGet?])

/-- C7: every transport fault (connection error, timeout, unparseable
JSON) surfaces as the one `DynessAPIError` kind wrapping the cause, and
every `_post` outcome is either an envelope or that error kind — the
client exposes exactly one error type and never swallows a failure. -/
theorem transport_faults_one_error_kind (path msg : String) :
    DynessAPI.post path (.fault msg) =
      .error (.apiError ("Request to " ++ path ++ " failed: " ++ msg))
  ∧ ∀ t : TransportOutcome,
      (∃ fs, DynessAPI.post path t = .ok fs) ∨
        ∃ m, DynessAPI.post path t = .error (.apiError m) :=
  ⟨rfl, fun t => post_cases path t⟩

/-- C8: `test_connection` performs exactly one call — device detail by
the BMS serial — returns that response's data payload on success, and
re-raises the client's error unmodified on failure (never an empty
success). -/
theorem test_connection_spec (sn_bms : String) (t : TransportOutcome) :
    (DynessAPI.test_connection_call sn_bms).path = DynessAPI.DETAIL_PATH
  ∧ (DynessAPI.test_connection_call sn_bms).body = .obj [("deviceSn", .str sn_bms)]
  ∧ (∀ fs, DynessAPI.post DynessAPI.DETAIL_PATH t = .ok fs →
      DynessAPI.test_connection t = .ok (objGetD fs "data" (.obj [])))
  ∧ (∀ e, DynessAPI.post DynessAPI.DETAIL_PATH t = .error e →
      DynessAPI.test_connection t = .error e ∧ ∀ v, DynessAPI.test_connection t ≠ .ok v) := by
  refine ⟨rfl, rfl, fun fs h => ?_, fun e h => ?_⟩
  · simp [DynessAPI.test_connection, h]
  · simp [DynessAPI.test_connection, h]

/-- Witness for C8: a response with code "1" and message
"invalid signature" makes `test_connection` fail with an error carrying
both, not succeed with empty data. -/
theorem test_connection_witness :
    DynessAPI.test_connection (.ok (.obj [("code", .str "1"), ("info", .str "invalid signature")]))
        = .error (.apiError "/v1/device/household/storage/detail → code=1 | invalid signature")
  ∧ ∀ v, DynessAPI.test_connection
        (.ok (.obj [("code", .str "1"), ("info", .str "invalid signature")])) ≠ .ok v := by
  exact (test_connection_spec "SN"
    (.ok (.obj [("code", .str "1"), ("info", .str "invalid signature")]))).2.2.2 _ rfl

/-- C10: the entry-setup path builds the client without the stored
region, so its base URL is always the global one, while the one-time
validation path resolves the selected region (e.g. apac). -/
theorem setup_entry_ignores_region (d : ConfigEntryData) :
    (setupEntryApi d).base_url = DynessAPI.globalBaseUrl
  ∧ (validateInputApi d).base_url = DynessAPI.baseUrlOf (d.region.getD "global")
  ∧ (validateInputApi ⟨d.api_id, d.api_secret, d.sn_bms, d.sn_dongle, some "apac"⟩).base_url
      = DynessAPI.apacBaseUrl :=
  ⟨rfl, rfl, rfl⟩

/-- On a list of dict entries the power comprehension succeeds and keeps
exactly the qualifying records, in order. -/
theorem selectPowerRecords_all_obj (xs : List JVal) (h : xs.all isObjVal = true) :
    DynessAPI.selectPowerRecords xs = .ok (xs.filter powerQualifies) := by
  induction xs with
  | nil => rfl
  | cons x rest ih =>
    rw [List.all_cons, Bool.and_eq_true] at h
    obtain ⟨hx, hrest⟩ := h
    cases x with
    | obj pfs =>
      cases hg : objGet? pfs "realTimePower" with
      | none =>
        simp [DynessAPI.selectPowerRecords, pyMethodGet, hg, ih hrest,
          List.filter_cons, powerQualifies]
      | some v =>
        cases v <;>
          simp [DynessAPI.selectPowerRecords, pyMethodGet, hg, ih hrest,
            List.filter_cons, powerQualifies]
    | null => simp [isObjVal] at hx
    | bool b => simp [isObjVal] at hx
    | num n => simp [isObjVal] at hx
    | str s => simp [isObjVal] at hx
    | arr l => simp [isObjVal] at hx

/-- C4: for a power-history list of records, the power section is the
last entry whose realTimePower is present and non-null, an empty map
when none qualifies; a missing/null data list also gives an empty
map. -/
theorem power_last_usable_entry (fs : List (String × JVal)) (entries : List JVal)
    (hdata : objGetD fs "data" .null = .arr entries)
    (hwf : entries.all isObjVal = true) :
    DynessAPI.powerSection fs = .ok (specPowerSelect entries)
  ∧ ∀ gs, objGetD gs "data" .null = .null → DynessAPI.powerSection gs = .ok (.obj []) := by
  constructor
  · have hor : pyOrElse (.arr entries) (.arr []) = .arr entries := by
      cases entries <;> rfl
    simp [DynessAPI.powerSection, DynessAPI.dataEntries, hdata, hor, pyIter,
      selectPowerRecords_all_obj entries hwf, specPowerSelect]
  · intro gs hg
    simp [DynessAPI.powerSection, DynessAPI.dataEntries, hg, pyOrElse, pyTruthy, pyIter,
      DynessAPI.selectPowerRecords]

/-- Witness for C4: on `[{realTimePower: null}, {realTimePower: 5},
{realTimePower: null}]` the selected record is the one with value 5. -/
theorem power_last_usable_entry_witness :
    DynessAPI.powerSection
        [("data", .arr [.obj [("realTimePower", .null)],
                        .obj [("realTimePower", .num 5)],
                        .obj [("realTimePower", .null)]])]
      = .ok (.obj [("realTimePower", .num 5)]) := by
  exact (power_last_usable_entry
    [("data", .arr [.obj [("realTimePower", .null)], .obj [("realTimePower", .num 5)],
      .obj [("realTimePower", .null)]])]
    [.obj [("realTimePower", .null)], .obj [("realTimePower", .num 5)],
     .obj [("realTimePower", .null)]] rfl rfl).1

/-- C5: module-serial discovery through `get_all_data` is write-once and
first-non-empty-wins: a non-empty `sn_module` is never changed, and when
it is empty and the BMS points call succeeds with a string `SUB` value,
it becomes the first trimmed non-empty comma token (staying empty when
no token remains, since `headD ""` is the no-candidate fallback). -/
theorem module_sn_write_once (sn_module : String) (t1 t2 t3 t4 : TransportOutcome)
    (res : List (String × DynessAPI.SecVal)) (m2 : String)
    (h : DynessAPI.get_all_data sn_module t1 t2 t3 t4 = (.ok res, m2)) :
    (sn_module ≠ "" → m2 = sn_module)
  ∧ (sn_module = "" → ∀ fs bms s,
      DynessAPI.post DynessAPI.REALTIME_PATH t3 = .ok fs →
      DynessAPI.pointsOf fs = .ok bms →
      dictGetD bms (.str "SUB") (.str "") = .str s →
      m2 = (moduleTokens s).headD "") := by
  unfold DynessAPI.get_all_data at h
  cases h1 : DynessAPI.runDevice t1 with
  | error e => rw [h1] at h; simp at h
  | ok dev =>
  rw [h1] at h
  cases h2 : DynessAPI.runPower t2 with
  | error e => rw [h2] at h; simp at h
  | ok pow =>
  rw [h2] at h
  cases h3 : DynessAPI.runBms sn_module t3 with
  | error e => rw [h3] at h; simp at h
  | ok bm =>
  obtain ⟨bmsv, m2x⟩ := bm
  rw [h3] at h
  cases h4 : DynessAPI.runDongle t4 with
  | error e => rw [h4] at h; simp at h
  | ok don =>
  rw [h4] at h
  simp only [Prod.mk.injEq] at h
  obtain ⟨-, hm2⟩ := h
  subst hm2
  constructor
  · -- a non-empty module serial survives every branch of section 3
    intro hne
    cases hp : DynessAPI.post DynessAPI.REALTIME_PATH t3 with
    | error e =>
      have hapi := post_error_api _ t3 e hp
      cases e with
      | apiError m =>
        rw [DynessAPI.runBms, hp] at h3
        dsimp only at h3
        simp only [DynessAPI.catchApiErr, Except.ok.injEq, Prod.mk.injEq] at h3
        exact h3.2.symm
      | keyError k => simp [isApiErr] at hapi
      | attrError a => simp [isApiErr] at hapi
      | typeError m => simp [isApiErr] at hapi
    | ok fs =>
      rw [DynessAPI.runBms, hp] at h3
      dsimp only at h3
      cases hbs : DynessAPI.bmsSection sn_module fs with
      | ok dm =>
        obtain ⟨d, m⟩ := dm
        rw [hbs] at h3
        simp only [DynessAPI.catchApiErr, Except.ok.injEq, Prod.mk.injEq] at h3
        -- bmsSection keeps a non-empty serial unchanged
        rw [DynessAPI.bmsSection] at hbs
        cases hpo : DynessAPI.pointsOf fs with
        | error e => rw [hpo] at hbs; simp at hbs
        | ok bms =>
          rw [hpo] at hbs
          dsimp only at hbs
          rw [DynessAPI.discoverModule.eq_def, if_neg hne] at hbs
          simp only [Except.ok.injEq, Prod.mk.injEq] at hbs
          exact (hbs.2.trans h3.2).symm
      | error e =>
        rw [hbs] at h3
        cases e with
        | apiError m =>
          simp only [DynessAPI.catchApiErr, Except.ok.injEq, Prod.mk.injEq] at h3
          exact h3.2.symm
        | keyError k => simp [DynessAPI.catchApiErr] at h3
        | attrError a => simp [DynessAPI.catchApiErr] at h3
        | typeError m => simp [DynessAPI.catchApiErr] at h3
  · -- discovery formula when the serial is still empty
    intro hemp fs bms s hp hpo hsub
    subst hemp
    rw [DynessAPI.runBms, hp] at h3
    dsimp only at h3
    have hbs : DynessAPI.bmsSection "" fs = .ok (bms, (moduleTokens s).headD "") := by
      rw [DynessAPI.bmsSection, hpo]
      dsimp only
      rw [DynessAPI.discoverModule.eq_def, if_pos rfl, hsub]
    rw [hbs] at h3
    simp only [DynessAPI.catchApiErr, Except.ok.injEq, Prod.mk.injEq] at h3
    exact h3.2.symm


/-- Witness for C5: with an empty module serial, a successful BMS call
whose `SUB` value is " ABC123 , DEF456" discovers "ABC123"; with the
serial already "XYZ", a later cycle with a different `SUB` leaves it
unchanged. -/
theorem module_sn_write_once_witness :
    (DynessAPI.get_all_data "" (.fault "net") (.fault "net")
        (.ok (.obj [("code", .num 0),
          ("data", .arr [.obj [("pointId", .str "SUB"), ("pointValue", .str " ABC123 , DEF456")]])]))
        (.fault "net")).2 = "ABC123"
  ∧ "ABC123" = (moduleTokens " ABC123 , DEF456").headD ""
  ∧ "XYZ" = "XYZ" ∧
    (DynessAPI.get_all_data "XYZ" (.fault "net") (.fault "net")
        (.ok (.obj [("code", .num 0),
          ("data", .arr [.obj [("pointId", .str "SUB"), ("pointValue", .str " OTHER ")]])]))
        (.fault "net")).2 = "XYZ" := by
  refine ⟨rfl, ?_, rfl, ?_⟩
  · exact (module_sn_write_once "" (.fault "net") (.fault "net")
      (.ok (.obj [("code", .num 0),
        ("data", .arr [.obj [("pointId", .str "SUB"), ("pointValue", .str " ABC123 , DEF456")]])]))
      (.fault "net")
      [("device", .jval (.obj [])), ("power", .jval (.obj [])),
       ("bms", .dict [(.str "SUB", .str " ABC123 , DEF456")]), ("dongle", .dict [])]
      "ABC123" rfl).2 rfl
      [("code", .num 0),
        ("data", .arr [.obj [("pointId", .str "SUB"), ("pointValue", .str " ABC123 , DEF456")]])]
      [(.str "SUB", .str " ABC123 , DEF456")] " ABC123 , DEF456" rfl rfl rfl
  · exact (module_sn_write_once "XYZ" (.fault "net") (.fault "net")
      (.ok (.obj [("code", .num 0),
        ("data", .arr [.obj [("pointId", .str "SUB"), ("pointValue", .str " OTHER ")]])]))
      (.fault "net")
      [("device", .jval (.obj [])), ("power", .jval (.obj [])),
       ("bms", .dict [(.str "SUB", .str " OTHER ")]), ("dongle", .dict [])]
      "XYZ" rfl).1 (by simp)

/-- The `except DynessAPIError` wrapper never lets a `DynessAPIError`
escape: any escaping exception is of another kind. -/
theorem catchApi_not_api {α : Type} (x : Except PyErr α) (fb : α) (e : PyErr)
    (h : DynessAPI.catchApiErr x fb = .error e) : isApiErr e = false := by
  cases x with
  | ok a => simp [DynessAPI.catchApiErr] at h
  | error e2 =>
    cases e2 with
    | apiError m => simp [DynessAPI.catchApiErr] at h
    | keyError k => simp [DynessAPI.catchApiErr] at h; subst h; rfl
    | attrError a => simp [DynessAPI.catchApiErr] at h; subst h; rfl
    | typeError m => simp [DynessAPI.catchApiErr] at h; subst h; rfl

/-- An exception that is not a `DynessAPIError` is not equal to one. -/
theorem not_api_ne (e : PyErr) (h : isApiErr e = false) (m : String) : e ≠ .apiError m := by
  intro h2; subst h2; simp [isApiErr] at h

/-- Section 1 always produces a value: its only failure mode is the
caught `DynessAPIError`. -/
theorem runDevice_ok (t : TransportOutcome) : ∃ v, DynessAPI.runDevice t = .ok v := by
  rcases post_cases DynessAPI.DETAIL_PATH t with ⟨fs, hp⟩ | ⟨m, hp⟩
  · rw [DynessAPI.runDevice, hp]; exact ⟨_, rfl⟩
  · rw [DynessAPI.runDevice, hp]; exact ⟨_, rfl⟩

/-- When the device call fails, section 1 falls back to an empty map. -/
theorem runDevice_fallback (t : TransportOutcome)
    (h : ∀ fs, DynessAPI.post DynessAPI.DETAIL_PATH t ≠ .ok fs) :
    DynessAPI.runDevice t = .ok (.jval (.obj [])) := by
  rcases post_cases DynessAPI.DETAIL_PATH t with ⟨fs, hp⟩ | ⟨m, hp⟩
  · exact absurd hp (h fs)
  · rw [DynessAPI.runDevice, hp]; rfl

/-- A well-formed power payload is processed without raising. -/
theorem powerSection_of_wf (fs : List (String × JVal)) (h : wfPowerEnv fs = true) :
    ∃ v, DynessAPI.powerSection fs = .ok v := by
  rw [wfPowerEnv] at h
  cases hd : DynessAPI.dataEntries fs with
  | arr xs =>
    rw [hd] at h
    rw [DynessAPI.powerSection, hd]
    dsimp only [pyIter]
    rw [selectPowerRecords_all_obj xs h]
    exact ⟨_, rfl⟩
  | null => rw [hd] at h; cases h
  | bool b => rw [hd] at h; cases h
  | num n => rw [hd] at h; cases h
  | str s => rw [hd] at h; cases h
  | obj gs => rw [hd] at h; cases h

/-- Section 2 produces a value whenever its successful payload is well
formed (or the call failed with the caught error). -/
theorem runPower_ok (t : TransportOutcome)
    (h : ∀ fs, DynessAPI.post DynessAPI.POWER_PATH t = .ok fs → wfPowerEnv fs = true) :
    ∃ v, DynessAPI.runPower t = .ok v := by
  rcases post_cases DynessAPI.POWER_PATH t with ⟨fs, hp⟩ | ⟨m, hp⟩
  · obtain ⟨v, hv⟩ := powerSection_of_wf fs (h fs hp)
    rw [DynessAPI.runPower, hp]
    dsimp only
    rw [hv]
    exact ⟨_, rfl⟩
  · rw [DynessAPI.runPower, hp]
    exact ⟨_, rfl⟩

/-- When the power call fails, section 2 falls back to an empty map. -/
theorem runPower_fallback (t : TransportOutcome)
    (h : ∀ fs, DynessAPI.post DynessAPI.POWER_PATH t ≠ .ok fs) :
    DynessAPI.runPower t = .ok (.jval (.obj [])) := by
  rcases post_cases DynessAPI.POWER_PATH t with ⟨fs, hp⟩ | ⟨m, hp⟩
  · exact absurd hp (h fs)
  · rw [DynessAPI.runPower, hp]; rfl

/-- A list of well-formed point records builds its dict without
raising. -/
theorem buildPoints_of_wf (xs : List JVal) (acc : PyDict)
    (h : xs.all wfPointRecord = true) : ∃ d, DynessAPI.buildPoints xs acc = .ok d := by
  induction xs generalizing acc with
  | nil => exact ⟨acc, rfl⟩
  | cons x rest ih =>
    rw [List.all_cons, Bool.and_eq_true] at h
    obtain ⟨hx, hrest⟩ := h
    cases x with
    | obj pfs =>
      rw [wfPointRecord, Bool.and_eq_true, Bool.and_eq_true] at hx
      obtain ⟨⟨hid, hval⟩, hhash⟩ := hx
      cases hgi : objGet? pfs "pointId" with
      | none => rw [hgi] at hid; cases hid
      | some k =>
        cases hgv : objGet? pfs "pointValue" with
        | none => rw [hgv] at hval; cases hval
        | some v =>
          rw [hgi] at hhash
          simp only [Option.getD] at hhash
          obtain ⟨d, hd⟩ := ih (dictSet acc k v) hrest
          refine ⟨d, ?_⟩
          simp [DynessAPI.buildPoints, pyGetItem, hgi, hgv, hhash, hd]
    | null => simp [wfPointRecord] at hx
    | bool b => simp [wfPointRecord] at hx
    | num n => simp [wfPointRecord] at hx
    | str s => simp [wfPointRecord] at hx
    | arr l => simp [wfPointRecord] at hx

/-- A well-formed points payload builds its dict without raising. -/
theorem pointsOf_of_wf (fs : List (String × JVal)) (h : wfPointsEnv fs = true) :
    ∃ d, DynessAPI.pointsOf fs = .ok d := by
  rw [wfPointsEnv] at h
  cases hd : DynessAPI.dataEntries fs with
  | arr xs =>
    rw [hd] at h
    obtain ⟨d, hbp⟩ := buildPoints_of_wf xs [] h
    rw [DynessAPI.pointsOf, hd]
    dsimp only [pyIter]
    rw [hbp]
    exact ⟨d, rfl⟩
  | null => rw [hd] at h; cases h
  | bool b => rw [hd] at h; cases h
  | num n => rw [hd] at h; cases h
  | str s => rw [hd] at h; cases h
  | obj gs => rw [hd] at h; cases h

/-- A well-formed BMS payload is processed without raising. -/
theorem bmsSection_of_wf (sn_module : String) (fs : List (String × JVal))
    (h : wfBmsEnv sn_module fs = true) :
    ∃ d m, DynessAPI.bmsSection sn_module fs = .ok (d, m) := by
  rw [wfBmsEnv, Bool.and_eq_true] at h
  obtain ⟨hpts, hsub⟩ := h
  obtain ⟨bms, hpo⟩ := pointsOf_of_wf fs hpts
  by_cases hm : sn_module = ""
  · rw [if_pos hm, hpo] at hsub
    dsimp only at hsub
    cases hsv : dictGetD bms (.str "SUB") (.str "") with
    | str s =>
      rw [DynessAPI.bmsSection, hpo]
      dsimp only
      rw [DynessAPI.discoverModule.eq_def, if_pos hm, hsv]
      exact ⟨bms, _, rfl⟩
    | null => rw [hsv] at hsub; cases hsub
    | bool b => rw [hsv] at hsub; cases hsub
    | num n => rw [hsv] at hsub; cases hsub
    | arr l => rw [hsv] at hsub; cases hsub
    | obj gs => rw [hsv] at hsub; cases hsub
  · rw [DynessAPI.bmsSection, hpo]
    dsimp only
    rw [DynessAPI.discoverModule.eq_def, if_neg hm]
    exact ⟨bms, sn_module, rfl⟩

/-- Section 3 produces a value whenever its successful payload is well
formed (or the call failed with the caught error). -/
theorem runBms_ok (sn_module : String) (t : TransportOutcome)
    (h : ∀ fs, DynessAPI.post DynessAPI.REALTIME_PATH t = .ok fs →
      wfBmsEnv sn_module fs = true) :
    ∃ d m, DynessAPI.runBms sn_module t = .ok (.dict d, m) := by
  rcases post_cases DynessAPI.REALTIME_PATH t with ⟨fs, hp⟩ | ⟨m, hp⟩
  · obtain ⟨d, m, hbs⟩ := bmsSection_of_wf sn_module fs (h fs hp)
    refine ⟨d, m, ?_⟩
    rw [DynessAPI.runBms, hp]
    dsimp only
    rw [hbs]
    rfl
  · refine ⟨[], sn_module, ?_⟩
    rw [DynessAPI.runBms, hp]
    rfl

/-- When the BMS call fails, section 3 falls back to an empty map and an
unchanged module serial. -/
theorem runBms_fallback (sn_module : String) (t : TransportOutcome)
    (h : ∀ fs, DynessAPI.post DynessAPI.REALTIME_PATH t ≠ .ok fs) :
    DynessAPI.runBms sn_module t = .ok (.dict [], sn_module) := by
  rcases post_cases DynessAPI.REALTIME_PATH t with ⟨fs, hp⟩ | ⟨m, hp⟩
  · exact absurd hp (h fs)
  · rw [DynessAPI.runBms, hp]; rfl

/-- Section 4 produces a value whenever its successful payload is well
formed (or the call failed with the caught error). -/
theorem runDongle_ok (t : TransportOutcome)
    (h : ∀ fs, DynessAPI.post DynessAPI.REALTIME_PATH t = .ok fs → wfPointsEnv fs = true) :
    ∃ d, DynessAPI.runDongle t = .ok (.dict d) := by
  rcases post_cases DynessAPI.REALTIME_PATH t with ⟨fs, hp⟩ | ⟨m, hp⟩
  · obtain ⟨d, hpo⟩ := pointsOf_of_wf fs (h fs hp)
    refine ⟨d, ?_⟩
    rw [DynessAPI.runDongle, hp]
    dsimp only
    rw [hpo]
    rfl
  · refine ⟨[], ?_⟩
    rw [DynessAPI.runDongle, hp]
    rfl

/-- When the dongle call fails, section 4 falls back to an empty map. -/
theorem runDongle_fallback (t : TransportOutcome)
    (h : ∀ fs, DynessAPI.post DynessAPI.REALTIME_PATH t ≠ .ok fs) :
    DynessAPI.runDongle t = .ok (.dict []) := by
  rcases post_cases DynessAPI.REALTIME_PATH t with ⟨fs, hp⟩ | ⟨m, hp⟩
  · exact absurd hp (h fs)
  · rw [DynessAPI.runDongle, hp]; rfl

/-- Counterexample to C1 as stated: with three calls failing with the
client's API error and the BMS call succeeding — but with a record
lacking `pointId` — `get_all_data` raises `KeyError` instead of
returning a snapshot, so not every combination of call outcomes yields
the four-key snapshot. -/
theorem snapshot_totality_cx :
    (DynessAPI.get_all_data "" (.fault "net down") (.fault "net down")
        (.ok (.obj [("code", .num 0), ("data", .arr [.obj [("pointValue", .num 1)]])]))
        (.fault "net down")).1 = .error (.keyError "pointId")
  ∧ ∀ res, (DynessAPI.get_all_data "" (.fault "net down") (.fault "net down")
        (.ok (.obj [("code", .num 0), ("data", .arr [.obj [("pointValue", .num 1)]])]))
        (.fault "net down")).1 ≠ .ok res := by
  refine ⟨rfl, fun res hr => ?_⟩
  rw [show (DynessAPI.get_all_data "" (.fault "net down") (.fault "net down")
      (.ok (.obj [("code", .num 0), ("data", .arr [.obj [("pointValue", .num 1)]])]))
      (.fault "net down")).1 = .error (.keyError "pointId") from rfl] at hr
  cases hr

/-- C1 (amended): whenever each successful call's payload is well formed
for its section's post-processing, `get_all_data` returns a snapshot
with exactly the four keys device, power, bms, dongle in order; each
section whose call failed is bound to an empty map (and a failed BMS
call leaves the module serial untouched), failures do not abort the
remaining sections; and — unconditionally — no `DynessAPIError` ever
escapes `get_all_data`. -/
theorem snapshot_keys_and_isolation (sn_module : String) (t1 t2 t3 t4 : TransportOutcome)
    (h2 : ∀ fs, DynessAPI.post DynessAPI.POWER_PATH t2 = .ok fs → wfPowerEnv fs = true)
    (h3 : ∀ fs, DynessAPI.post DynessAPI.REALTIME_PATH t3 = .ok fs →
      wfBmsEnv sn_module fs = true)
    (h4 : ∀ fs, DynessAPI.post DynessAPI.REALTIME_PATH t4 = .ok fs → wfPointsEnv fs = true) :
    (∃ res m2, DynessAPI.get_all_data sn_module t1 t2 t3 t4 = (.ok res, m2)
      ∧ res.map Prod.fst = ["device", "power", "bms", "dongle"]
      ∧ ((∀ fs, DynessAPI.post DynessAPI.DETAIL_PATH t1 ≠ .ok fs) →
          res.lookup "device" = some (.jval (.obj [])))
      ∧ ((∀ fs, DynessAPI.post DynessAPI.POWER_PATH t2 ≠ .ok fs) →
          res.lookup "power" = some (.jval (.obj [])))
      ∧ ((∀ fs, DynessAPI.post DynessAPI.REALTIME_PATH t3 ≠ .ok fs) →
          res.lookup "bms" = some (.dict []) ∧ m2 = sn_module)
      ∧ ((∀ fs, DynessAPI.post DynessAPI.REALTIME_PATH t4 ≠ .ok fs) →
          res.lookup "dongle" = some (.dict [])))
  ∧ ∀ (s : String) (u1 u2 u3 u4 : TransportOutcome) (m : String),
      (DynessAPI.get_all_data s u1 u2 u3 u4).1 ≠ .error (.apiError m) := by
  constructor
  · obtain ⟨dev, hdev⟩ := runDevice_ok t1
    obtain ⟨pow, hpow⟩ := runPower_ok t2 h2
    obtain ⟨bmsd, m2, hbms⟩ := runBms_ok sn_module t3 h3
    obtain ⟨dond, hdon⟩ := runDongle_ok t4 h4
    refine ⟨[("device", dev), ("power", pow), ("bms", .dict bmsd), ("dongle", .dict dond)],
      m2, ?_, rfl, ?_, ?_, ?_, ?_⟩
    · rw [DynessAPI.get_all_data, hdev, hpow, hbms, hdon]
    · intro hf
      have h := runDevice_fallback t1 hf
      rw [hdev] at h
      have := Except.ok.inj h
      subst this
      rfl
    · intro hf
      have h := runPower_fallback t2 hf
      rw [hpow] at h
      have := Except.ok.inj h
      subst this
      rfl
    · intro hf
      have h := runBms_fallback sn_module t3 hf
      rw [hbms] at h
      have h := Except.ok.inj h
      rw [Prod.mk.injEq] at h
      obtain ⟨hd, hm⟩ := h
      rw [DynessAPI.SecVal.dict.injEq] at hd
      subst hd
      exact ⟨rfl, hm⟩
    · intro hf
      have h := runDongle_fallback t4 hf
      rw [hdon] at h
      have h := Except.ok.inj h
      rw [DynessAPI.SecVal.dict.injEq] at h
      subst h
      rfl
  · intro s u1 u2 u3 u4 m
    rw [DynessAPI.get_all_data]
    cases hd : DynessAPI.runDevice u1 with
    | error e =>
      dsimp only
      exact fun hc => not_api_ne e (catchApi_not_api _ _ e hd) m (Except.error.inj hc)
    | ok dev =>
    cases hp : DynessAPI.runPower u2 with
    | error e =>
      dsimp only
      exact fun hc => not_api_ne e (catchApi_not_api _ _ e hp) m (Except.error.inj hc)
    | ok pow =>
    cases hb : DynessAPI.runBms s u3 with
    | error e =>
      dsimp only
      exact fun hc => not_api_ne e (catchApi_not_api _ _ e hb) m (Except.error.inj hc)
    | ok bm =>
    obtain ⟨bmsv, m2⟩ := bm
    cases hn : DynessAPI.runDongle u4 with
    | error e =>
      dsimp only
      exact fun hc => not_api_ne e (catchApi_not_api _ _ e hn) m (Except.error.inj hc)
    | ok don =>
      dsimp only
      exact fun hc => Except.noConfusion hc

/-- Witness for the amended C1: device and dongle calls fail, power and
BMS calls succeed with well-formed payloads — the snapshot still has
exactly the four keys, with empty maps for the failed sections. -/
theorem snapshot_keys_and_isolation_witness :
    ∃ res m2, DynessAPI.get_all_data "" (.fault "net")
        (.ok (.obj [("code", .num 0), ("data", .arr [.obj [("realTimePower", .num 5)]])]))
        (.ok (.obj [("code", .num 0),
          ("data", .arr [.obj [("pointId", .str "SUB"), ("pointValue", .str "M1")]])]))
        (.fault "net") = (.ok res, m2)
      ∧ res.map Prod.fst = ["device", "power", "bms", "dongle"]
      ∧ ((∀ fs, DynessAPI.post DynessAPI.DETAIL_PATH (.fault "net") ≠ .ok fs) →
          res.lookup "device" = some (.jval (.obj [])))
      ∧ ((∀ fs, DynessAPI.post DynessAPI.POWER_PATH
            (.ok (.obj [("code", .num 0), ("data", .arr [.obj [("realTimePower", .num 5)]])]))
            ≠ .ok fs) → res.lookup "power" = some (.jval (.obj [])))
      ∧ ((∀ fs, DynessAPI.post DynessAPI.REALTIME_PATH
            (.ok (.obj [("code", .num 0),
              ("data", .arr [.obj [("pointId", .str "SUB"), ("pointValue", .str "M1")]])]))
            ≠ .ok fs) → res.lookup "bms" = some (.dict []) ∧ m2 = "")
      ∧ ((∀ fs, DynessAPI.post DynessAPI.REALTIME_PATH (.fault "net") ≠ .ok fs) →
          res.lookup "dongle" = some (.dict [])) := by
  exact (snapshot_keys_and_isolation "" (.fault "net")
    (.ok (.obj [("code", .num 0), ("data", .arr [.obj [("realTimePower", .num 5)]])]))
    (.ok (.obj [("code", .num 0),
      ("data", .arr [.obj [("pointId", .str "SUB"), ("pointValue", .str "M1")]])]))
    (.fault "net")
    (fun fs h => by injection h with h; subst h; rfl)
    (fun fs h => by injection h with h; subst h; rfl)
    (fun fs h => by simp [DynessAPI.post] at h)).1

/-- C9: `get_all_data` downgrades only the client's API errors; a
successful call with a malformed payload raises an exception that
escapes, so that cycle yields no snapshot: a non-dict power record
raises `AttributeError`, a non-string `SUB` value raises
`AttributeError` in discovery, and a point record missing `pointValue`
raises `KeyError`. -/
theorem malformed_payload_escapes :
    (DynessAPI.get_all_data "M1" (.fault "down")
        (.ok (.obj [("code", .str "0"), ("data", .arr [.num 7])]))
        (.fault "down") (.fault "down")).1
      = .error (.attrError "\x27int\x27 object has no attribute \x27get\x27")
  ∧ (DynessAPI.get_all_data "" (.ok (.obj [("code", .num 0)])) (.ok (.obj [("code", .num 0)]))
        (.ok (.obj [("code", .num 200),
          ("data", .arr [.obj [("pointId", .str "SUB"), ("pointValue", .num 5)]])]))
        (.ok (.obj [("code", .num 0)]))).1
      = .error (.attrError "\x27int\x27 object has no attribute \x27split\x27")
  ∧ (DynessAPI.get_all_data "M1" (.fault "down") (.fault "down") (.fault "down")
        (.ok (.obj [("code", .num 0), ("data", .arr [.obj [("pointId", .str "P1")]])]))).1
      = .error (.keyError "pointValue") :=
  ⟨rfl, rfl, rfl⟩

/-- Base64 output length: four characters per three-byte group. -/
theorem b64Chars_length : ∀ l : List Nat, (b64Chars l).length = 4 * ((l.length + 2) / 3)
  | [] => rfl
  | [a] => by simp [b64Chars]
  | [a, b] => by simp [b64Chars]
  | a :: b :: c :: rest => by
    have ih := b64Chars_length rest
    simp [b64Chars, ih]
    omega

/-- The MD5 digest is always 16 bytes. -/
theorem md5Bytes_length (msg : List Nat) : (md5Bytes msg).length = 16 := by
  rw [md5Bytes.eq_def]
  rcases md5Words msg with ⟨a, b, c, d⟩
  simp [natLEBytes]

/-- A base64-encoded MD5 digest is 24 characters (a hex digest would be
32). -/
theorem md5_length (s : String) : (DynessAPI.md5 s).length = 24 := by
  rw [DynessAPI.md5, b64Encode]
  show (b64Chars (md5Bytes (utf8Bytes s))).length = 24
  rw [b64Chars_length, md5Bytes_length]

/-- C6 (amended): the content digest is the base64 of the raw MD5
digest bytes (24 characters, not the 32-character hex form) of the
canonical compact serialization; bodies with equal serialized bytes
have equal digests.  (The converse — equal digests implying equal
bytes — is false by counting, since MD5 has finitely many outputs.) -/
theorem content_digest_spec (b1 b2 : JVal) (h : jsonDumps b1 = jsonDumps b2) :
    DynessAPI.contentDigest b1 = b64Encode (md5Bytes (utf8Bytes (jsonDumps b1)))
  ∧ (DynessAPI.contentDigest b1).length = 24
  ∧ DynessAPI.contentDigest b1 = DynessAPI.contentDigest b2 :=
  ⟨rfl, md5_length _, by rw [DynessAPI.contentDigest, DynessAPI.contentDigest, h]⟩

/-- Witness for the amended C6: two syntactically different bodies with
identical serialized bytes have the same digest. -/
theorem content_digest_witness :
    jsonDumps (.obj [("deviceSn", .str "A")]) = jsonDumps (.obj [("deviceSn", .str ("A" ++ ""))])
  ∧ DynessAPI.contentDigest (.obj [("deviceSn", .str "A")])
      = DynessAPI.contentDigest (.obj [("deviceSn", .str ("A" ++ ""))]) :=
  ⟨rfl, (content_digest_spec (.obj [("deviceSn", .str "A")])
    (.obj [("deviceSn", .str ("A" ++ ""))]) rfl).2.2⟩

/-- Plain characters are not escaped by the serializer. -/
theorem escape_replicate (n : Nat) :
    (List.replicate n 'a').flatMap jsonEscapeChar = List.replicate n 'a' := by
  induction n with
  | zero => rfl
  | succ n ih => simp [List.replicate_succ, ih]; rfl

/-- The serialized size of `bodyOfSize n` grows with `n`, so the family
is injective on serializations. -/
theorem quoted_replicate_length (n : Nat) :
    (jsonQuote (String.mk (List.replicate n 'a'))).length = n + 2 := by
  rw [jsonQuote, String.length_mk,
    show (String.mk (List.replicate n 'a')).data = List.replicate n 'a' from rfl,
    escape_replicate]
  simp

theorem jsonDumps_bodyOfSize_length (n : Nat) : (jsonDumps (bodyOfSize n)).length = n + 15 := by
  rw [bodyOfSize]
  simp only [jsonDumps, jsonDumpsFields]
  rw [String.length_append, String.length_append, String.length_append, String.length_append,
    quoted_replicate_length,
    show (jsonQuote "deviceSn").length = 10 from rfl,
    show "\x7b".length = 1 from rfl, show "\x7d".length = 1 from rfl,
    show ":".length = 1 from rfl]
  omega

/-- Each MD5 state word is below the word modulus. -/
theorem md5Words_bounds (msg : List Nat) :
    (md5Words msg).1 < M32 ∧ (md5Words msg).2.1 < M32
  ∧ (md5Words msg).2.2.1 < M32 ∧ (md5Words msg).2.2.2 < M32 := by
  rw [md5Words.eq_def]
  rcases foldBlocks md5Compress (mdPad (natLEBytes 8 (8 * msg.length)) msg).length
      (1732584193, 4023233417, 2562383102, 271733878)
      (mdPad (natLEBytes 8 (8 * msg.length)) msg) with ⟨a, b, c, d⟩
  refine ⟨?_, ?_, ?_, ?_⟩ <;> exact Nat.mod_lt _ (by decide)

/-- The bounds specialised to the collision family. -/
theorem md5WordsOf_bounds (n : Nat) :
    (md5WordsOf n).1 < M32 ∧ (md5WordsOf n).2.1 < M32
  ∧ (md5WordsOf n).2.2.1 < M32 ∧ (md5WordsOf n).2.2.2 < M32 :=
  md5Words_bounds (utf8Bytes (jsonDumps (bodyOfSize n)))

/-- Counterexample to C6 as stated: digest equality does not imply
serialized-byte equality.  The serializations of the `bodyOfSize`
family are pairwise distinct (their lengths differ) while MD5 digests
live in a finite set, so two distinct bodies share a digest. -/
theorem digest_not_injective :
    ¬ ∀ b1 b2 : JVal, DynessAPI.contentDigest b1 = DynessAPI.contentDigest b2 →
        jsonDumps b1 = jsonDumps b2 := by
  intro hall
  obtain ⟨n, m, hne, heq⟩ := Finite.exists_ne_map_eq_of_infinite
    (fun n : Nat =>
      ((⟨(md5WordsOf n).1, (md5WordsOf_bounds n).1⟩ : Fin M32),
       (⟨(md5WordsOf n).2.1, (md5WordsOf_bounds n).2.1⟩ : Fin M32),
       (⟨(md5WordsOf n).2.2.1, (md5WordsOf_bounds n).2.2.1⟩ : Fin M32),
       (⟨(md5WordsOf n).2.2.2, (md5WordsOf_bounds n).2.2.2⟩ : Fin M32)))
  have e1 : (md5WordsOf n).1 = (md5WordsOf m).1 := congrArg (fun p => p.1.1) heq
  have e2 : (md5WordsOf n).2.1 = (md5WordsOf m).2.1 := congrArg (fun p => p.2.1.1) heq
  have e3 : (md5WordsOf n).2.2.1 = (md5WordsOf m).2.2.1 := congrArg (fun p => p.2.2.1.1) heq
  have e4 : (md5WordsOf n).2.2.2 = (md5WordsOf m).2.2.2 := congrArg (fun p => p.2.2.2.1) heq
  have hw : md5WordsOf n = md5WordsOf m := by
    rcases hn2 : md5WordsOf n with ⟨a, b, c, d⟩
    rcases hm2 : md5WordsOf m with ⟨a2, b2, c2, d2⟩
    rw [hn2, hm2] at e1 e2 e3 e4
    simp only at e1 e2 e3 e4
    simp [e1, e2, e3, e4]
  have hd : DynessAPI.contentDigest (bodyOfSize n) = DynessAPI.contentDigest (bodyOfSize m) := by
    rw [DynessAPI.contentDigest, DynessAPI.contentDigest, DynessAPI.md5, DynessAPI.md5,
      md5Bytes.eq_def, md5Bytes.eq_def]
    rw [show md5Words (utf8Bytes (jsonDumps (bodyOfSize n))) = md5WordsOf n from rfl,
      show md5Words (utf8Bytes (jsonDumps (bodyOfSize m))) = md5WordsOf m from rfl, hw]
  have hlen := congrArg String.length (hall _ _ hd)
  rw [jsonDumps_bodyOfSize_length, jsonDumps_bodyOfSize_length] at hlen
  exact hne (by omega)

-- Known-answer check of the embedded MD5/base64 pipeline
-- (the base64 of the MD5 digest of "abc").
set_option maxRecDepth 8000 in
example : DynessAPI.md5 "abc" = "kAFQmDzST7DWlj99KOF/cg==" := by decide

-- Known-answer check of the embedded HMAC-SHA1 (key "key" over the
-- fox sentence).
set_option maxRecDepth 8000 in
example : b64Encode (hmacSha1 (utf8Bytes "key")
    (utf8Bytes "The quick brown fox jumps over the lazy dog"))
    = "3nybhbi3iqa8ino29wqQcBydtNk=" := by decide
